import Mathlib

/-! # Session protocol engine: message dispatch and session registry

A shallow embedding of `network_session/callbacks.h` (the message dispatcher
`processMessage`) and `network_session/session_handler.cpp` (the session
registry `SessionHandler`) together with the properties proved about them.

Conventions of the embedding:
* machine integers are natural numbers; the 16-bit session-id counter is
  reduced modulo `2 ^ 16` where the code can overflow;
* a `Session*` is an address into an explicit heap of `Session` objects, a
  null pointer result is `none`;
* a spin-wait on a lock flag that is already set never ends in a sequential
  execution; such an operation yields `none`.
-/

namespace Kitsune

/-! ## Wire header and receive buffer -/

/-- The common prefix of every wire message. The struct declaration is not part
of the translated sources; the fields are the ones the code reads
(`version`, `type`, `flags`, `sessionId`, `messageId`). -/
structure CommonMessageHeader where
  version : Nat
  type : Nat
  flags : Nat
  sessionId : Nat
  messageId : Nat
deriving DecidableEq, Repr

/-- The receive buffer: the bytes that were received and are not consumed yet. -/
structure MessageRingBuffer where
  data : List Nat
deriving DecidableEq, Repr

/-- The socket a message arrived on; `sent` lists the messages written to it. -/
structure AbstractSocket where
  sent : List (List Nat)
deriving DecidableEq, Repr

/-- The handlers the dispatcher can route to. -/
inductive HandlerKind where
  | sessionHandler
  | heartbeatHandler
deriving DecidableEq, Repr

/-- What a per-type handler does: it gets the header, the receive buffer and the
socket and gives back the number of consumed bytes and the buffer and socket it
leaves behind. -/
abbrev Handler :=
  CommonMessageHeader → MessageRingBuffer → AbstractSocket →
    Nat × MessageRingBuffer × AbstractSocket

/-- The declarations `processMessage` uses that live outside the translated
sources: the size and byte layout of `CommonMessageHeader`, the enumerators of
the header's `type` field, and the two per-type handlers of
`session_processing.h` and `heartbeat_processing.h`. -/
structure Protocol where
  sizeofHeader : Nat
  decodeHeader : List Nat → CommonMessageHeader
  SESSION_TYPE : Nat
  HEARTBEAT_TYPE : Nat
  ERROR_TYPE : Nat
  DATA_TYPE : Nat
  process_Session_Type : Handler
  process_Heartbeat_Type : Handler

/-- Modelled from the spec: `getObjectFromBuffer<CommonMessageHeader>` of the
network library (not under the translated sources) peeks the header without
consuming it and yields a null pointer when fewer than
`sizeof(CommonMessageHeader)` bytes are buffered. -/
def getObjectFromBuffer (P : Protocol) (recvBuffer : MessageRingBuffer) :
    Option CommonMessageHeader :=
  if recvBuffer.data.length < P.sizeofHeader then none
  else some (P.decodeHeader (recvBuffer.data.take P.sizeofHeader))

/-- Everything a call of the dispatcher can read or change, with the log of the
handlers it invoked. -/
structure DispatchState where
  recvBuffer : MessageRingBuffer
  socket : AbstractSocket
  invoked : List HandlerKind
deriving DecidableEq, Repr

/-- Invoke one handler: log the invocation and take over the buffer and socket
the handler leaves behind. -/
def callHandler (k : HandlerKind) (f : Handler) (header : CommonMessageHeader)
    (st : DispatchState) : Nat × DispatchState :=
  let r := f header st.recvBuffer st.socket
  (r.1, { recvBuffer := r.2.1, socket := r.2.2, invoked := st.invoked ++ [k] })

/-- The dispatcher `processMessage(void*, recvBuffer, socket)` of `callbacks.h`.
The first component of the result is the returned number of consumed bytes. -/
def processMessage (P : Protocol) (_target : Nat) (st : DispatchState) :
    Nat × DispatchState :=
  match getObjectFromBuffer P st.recvBuffer with
  | none => (0, st)
  | some header =>
    if header.version ≠ 1 then (0, st)
    else if header.type = P.SESSION_TYPE then
      callHandler .sessionHandler P.process_Session_Type header st
    else if header.type = P.HEARTBEAT_TYPE then
      callHandler .heartbeatHandler P.process_Heartbeat_Type header st
    else (0, st)

/-- The state after `n` successive calls of the dispatcher. -/
def processMessageTimes (P : Protocol) (target : Nat) : Nat → DispatchState → DispatchState
  | 0, st => st
  | n + 1, st => processMessageTimes P target n (processMessage P target st).2

/-! ### A concrete protocol instance used to evaluate the dispatcher -/

/-- Little-endian value of a list of bytes. -/
def leValue : List Nat → Nat
  | [] => 0
  | b :: bs => b + 256 * leValue bs

/-- A 16-byte header layout: version, type, flags, one padding byte, a 32-bit
session id and a 64-bit message id. -/
def sampleDecode (bytes : List Nat) : CommonMessageHeader :=
  { version := bytes.getD 0 0
    type := bytes.getD 1 0
    flags := bytes.getD 2 0
    sessionId := leValue ((bytes.drop 4).take 4)
    messageId := leValue ((bytes.drop 8).take 8) }

/-- A sample session handler: consumes 24 bytes and answers with one message. -/
def sampleSessionHandler : Handler :=
  fun _ buf sock => (24, { data := buf.data.drop 24 }, { sent := sock.sent ++ [[1, 1]] })

/-- A sample heartbeat handler: consumes 16 bytes and answers with one message. -/
def sampleHeartbeatHandler : Handler :=
  fun _ buf sock => (16, { data := buf.data.drop 16 }, { sent := sock.sent ++ [[1, 2]] })

/-- A concrete protocol instance. -/
def sampleProtocol : Protocol :=
  { sizeofHeader := 16
    decodeHeader := sampleDecode
    SESSION_TYPE := 1
    HEARTBEAT_TYPE := 2
    ERROR_TYPE := 3
    DATA_TYPE := 4
    process_Session_Type := sampleSessionHandler
    process_Heartbeat_Type := sampleHeartbeatHandler }

/-- A dispatcher state whose buffer holds exactly the given bytes. -/
def stateOf (bytes : List Nat) : DispatchState :=
  { recvBuffer := { data := bytes }, socket := { sent := [] }, invoked := [] }

/-- A complete 16-byte header with the given version and type. -/
def headerBytes (version type : Nat) : List Nat :=
  [version, type, 0, 0, 7, 0, 0, 0, 1, 0, 0, 0, 0, 0, 0, 0]

/-! ## Session registry (`session_handler.cpp`) -/

/-- A session object. The class declaration is not part of the translated
sources; the fields are the ones `SessionHandler` writes or uses: the three
callback pairs (a target and a function each) and the socket of the session. -/
structure Session where
  m_sessionTarget : Nat
  m_processSession : Nat
  m_dataTarget : Nat
  m_processData : Nat
  m_errorTarget : Nat
  m_processError : Nat
  m_socket : AbstractSocket
deriving DecidableEq, Repr

/-- A `std::map<uint32_t, T*>`: the entries (key, pointer) in ascending key
order, every key at most once. -/
abbrev PtrMap := List (Nat × Nat)

/-- The invariant of `std::map`: keys strictly ascending. -/
def mapWF (m : PtrMap) : Prop := (m.map Prod.fst).Pairwise (fun a b => a < b)

instance (m : PtrMap) : Decidable (mapWF m) := by
  unfold mapWF; infer_instance

/-- The call `std::map::find`: the pointer stored under `id`, `none` for `end()`. -/
def mapFind : PtrMap → Nat → Option Nat
  | [], _ => none
  | (k, v) :: rest, id => if k = id then some v else mapFind rest id

/-- The call `std::map::insert`: a key that is present keeps its old value. -/
def mapInsert : PtrMap → Nat → Nat → PtrMap
  | [], id, p => [(id, p)]
  | (k, v) :: rest, id, p =>
    if id < k then (id, p) :: (k, v) :: rest
    else if id = k then (k, v) :: rest
    else (k, v) :: mapInsert rest id p

/-- The call `std::map::erase` on the entry of `id`. -/
def mapErase : PtrMap → Nat → PtrMap
  | [], _ => []
  | (k, v) :: rest, id => if k = id then rest else (k, v) :: mapErase rest id

/-- One entry of the timer thread: a sent message that waits for its reply. -/
structure TimerEntry where
  type : Nat
  sessionId : Nat
  messageId : Nat
  session : Nat
deriving DecidableEq, Repr

/-- The timer thread, as far as the session handler uses it. -/
structure TimerThread where
  running : Bool
  messages : List TimerEntry
deriving DecidableEq, Repr

/-- Modelled from the spec: `TimerThread::addMessage` of `timer_thread.h` (not
under the translated sources) accepts a tracked-entry registration (message
type, session id, message id, session). -/
def TimerThread.addMessage (t : TimerThread) (type sessionId messageId session : Nat) :
    TimerThread :=
  { t with messages := t.messages ++
      [{ type := type, sessionId := sessionId, messageId := messageId, session := session }] }

/-- The members of one `SessionHandler` object. Both locks are
`std::atomic_flag`s, `true` meaning set. The counter is 16 bits wide. -/
structure SessionHandler where
  m_sessionTarget : Nat
  m_processSession : Nat
  m_dataTarget : Nat
  m_processData : Nat
  m_errorTarget : Nat
  m_processError : Nat
  m_sessions : PtrMap
  m_servers : PtrMap
  m_sessionIdCounter : Nat
  m_sessionMap_lock : Bool
  m_sessionIdCounter_lock : Bool
deriving DecidableEq, Repr

/-- The process state the registry operations work on: the handler object, the
heap of session objects addressed by `Session*`, and the static
`SessionHandler::m_timerThread` (`none` for a null pointer). -/
structure State where
  handler : SessionHandler
  heap : Nat → Session
  m_timerThread : Option TimerThread

/-- The six assignments at the head of `addSession`. -/
def copyCallbacks (h : SessionHandler) (s : Session) : Session :=
  { s with
    m_sessionTarget := h.m_sessionTarget
    m_processSession := h.m_processSession
    m_dataTarget := h.m_dataTarget
    m_processData := h.m_processData
    m_errorTarget := h.m_errorTarget
    m_processError := h.m_processError }

/-- The method `SessionHandler::addSession(id, session)`; `session` is the
address of a live session object. -/
def addSession (s : State) (id : Nat) (session : Nat) : Option State :=
  if s.handler.m_sessionMap_lock then none
  else
    let h1 := { s.handler with m_sessionMap_lock := true }
    let heap1 := Function.update s.heap session (copyCallbacks h1 (s.heap session))
    let h2 := { h1 with m_sessions := mapInsert h1.m_sessions id session }
    some { s with handler := { h2 with m_sessionMap_lock := false }, heap := heap1 }

/-- The method `SessionHandler::removeSession(id)`; the first component of the
result is the returned pointer, `none` for `nullptr`. -/
def removeSession (s : State) (id : Nat) : Option (Option Nat × State) :=
  if s.handler.m_sessionMap_lock then none
  else
    let h1 := { s.handler with m_sessionMap_lock := true }
    match mapFind h1.m_sessions id with
    | some p =>
      let h2 := { h1 with m_sessions := mapErase h1.m_sessions id }
      some (some p, { s with handler := { h2 with m_sessionMap_lock := false } })
    | none =>
      some (none, { s with handler := { h1 with m_sessionMap_lock := false } })

/-- The method `SessionHandler::increaseSessionIdCounter()`; the first component
of the result is the returned `uint16_t`. -/
def increaseSessionIdCounter (s : State) : Option (Nat × State) :=
  if s.handler.m_sessionIdCounter_lock then none
  else
    let h1 := { s.handler with m_sessionIdCounter_lock := true }
    let h2 := { h1 with m_sessionIdCounter := (h1.m_sessionIdCounter + 1) % 2 ^ 16 }
    let tempId := h2.m_sessionIdCounter
    some (tempId, { s with handler := { h2 with m_sessionIdCounter_lock := false } })

/-- The call `session->m_socket->sendMessage(data, size)`: the first `size`
bytes of `data` go out on the socket of the session. -/
def socketSend (s : State) (session : Nat) (data : List Nat) (size : Nat) : State :=
  let obj := s.heap session
  let obj1 := { obj with m_socket := { sent := obj.m_socket.sent ++ [data.take size] } }
  { s with heap := Function.update s.heap session obj1 }

/-- The method `SessionHandler::sendMessage(session, header, data, size)`.
Registering with a null timer thread has no defined result (`none`). -/
def sendMessage (s : State) (session : Nat) (header : CommonMessageHeader)
    (data : List Nat) (size : Nat) : Option State :=
  if header.flags = 1 then
    match s.m_timerThread with
    | none => none
    | some t =>
      let t1 := t.addMessage header.type header.sessionId header.messageId session
      some (socketSend { s with m_timerThread := some t1 } session data size)
  else some (socketSend s session data size)

/-- Register the given (id, session) pairs one after the other. -/
def addSessions : State → List (Nat × Nat) → Option State
  | s, [] => some s
  | s, (id, session) :: rest =>
    match addSession s id session with
    | none => none
    | some s1 => addSessions s1 rest

/-- Remove the given ids one after the other, collecting the returned pointers. -/
def removeSessions : State → List Nat → Option (List (Option Nat) × State)
  | s, [] => some ([], s)
  | s, id :: rest =>
    match removeSession s id with
    | none => none
    | some (ret, s1) =>
      match removeSessions s1 rest with
      | none => none
      | some (rets, s2) => some (ret :: rets, s2)

/-! ### Concrete registry states used to evaluate the operations -/

/-- A session object with no callbacks configured and an unused socket. -/
def blankSession : Session :=
  { m_sessionTarget := 0, m_processSession := 0, m_dataTarget := 0, m_processData := 0,
    m_errorTarget := 0, m_processError := 0, m_socket := { sent := [] } }

/-- A handler with callbacks 11 to 16, the given session map and counter, and
both locks free. -/
def sampleHandler (sessions : PtrMap) (counter : Nat) : SessionHandler :=
  { m_sessionTarget := 11, m_processSession := 12, m_dataTarget := 13, m_processData := 14,
    m_errorTarget := 15, m_processError := 16, m_sessions := sessions, m_servers := [],
    m_sessionIdCounter := counter, m_sessionMap_lock := false,
    m_sessionIdCounter_lock := false }

/-- A process state around `sampleHandler` with a running, empty timer thread. -/
def sampleState (sessions : PtrMap) (counter : Nat) : State :=
  { handler := sampleHandler sessions counter
    heap := fun _ => blankSession
    m_timerThread := some { running := true, messages := [] } }

/-- A header with the given flags byte (version 1, type 4, session 7, message 9). -/
def headerWithFlags (flags : Nat) : CommonMessageHeader :=
  { version := 1, type := 4, flags := flags, sessionId := 7, messageId := 9 }

/-- The tracked entries of the timer thread, none when there is no timer thread. -/
def trackedEntries (s : State) : List TimerEntry :=
  match s.m_timerThread with
  | none => []
  | some t => t.messages

/-! ## Transport entry points (`callbacks.h`) -/

/-- The callback `processMessageTcp(target, recvBuffer, socket)`. -/
def processMessageTcp (P : Protocol) (target : Nat) (st : DispatchState) :
    Nat × DispatchState :=
  processMessage P target st

/-- The callback `processMessageTlsTcp(target, recvBuffer, socket)`. -/
def processMessageTlsTcp (P : Protocol) (target : Nat) (st : DispatchState) :
    Nat × DispatchState :=
  processMessage P target st

/-- The callback `processMessageUnixDomain(target, recvBuffer, socket)`. -/
def processMessageUnixDomain (P : Protocol) (target : Nat) (st : DispatchState) :
    Nat × DispatchState :=
  processMessage P target st

/-! ## Heartbeat broadcast (`session_handler.cpp`) -/

/-- What `Session::sendHeartbeat` does. The method is not part of the
translated sources; it gets the address of the session and works on the session
objects and the timer thread, not on the members of the handler. -/
abbrev HeartbeatSender :=
  Nat → (Nat → Session) → Option TimerThread → (Nat → Session) × Option TimerThread

/-- The loop of `sendHeartBeats` over the entries of the session map, in key
order. The first component of the result lists the sessions `sendHeartbeat`
was invoked on, one item per invocation. -/
def heartbeatLoop (hb : HeartbeatSender) : PtrMap → State → List Nat × State
  | [], s => ([], s)
  | (_, session) :: rest, s =>
    let r := hb session s.heap s.m_timerThread
    let r2 := heartbeatLoop hb rest { s with heap := r.1, m_timerThread := r.2 }
    (session :: r2.1, r2.2)

/-- The method `SessionHandler::sendHeartBeats()`; the first component of the
result lists the invocations of `sendHeartbeat`. -/
def sendHeartBeats (hb : HeartbeatSender) (s : State) : Option (List Nat × State) :=
  if s.handler.m_sessionMap_lock then none
  else
    let s1 := { s with handler := { s.handler with m_sessionMap_lock := true } }
    let r := heartbeatLoop hb s1.handler.m_sessions s1
    some (r.1, { r.2 with handler := { r.2.handler with m_sessionMap_lock := false } })

/-- A sample `sendHeartbeat`: one heartbeat message goes out on the socket of
the session. -/
def sampleHeartbeat : HeartbeatSender :=
  fun session heap timer =>
    let obj := heap session
    let obj1 := { obj with m_socket := { sent := obj.m_socket.sent ++ [[2, 1]] } }
    (Function.update heap session obj1, timer)

/-! ## Construction and teardown (`session_handler.cpp`) -/

/-- The values of `sizeof` for the message structs the constructor checks. The
struct declarations are not part of the translated sources. -/
structure MessageSizes where
  Session_Init_Start_Message : Nat
  Session_Init_Reply_Message : Nat
  Session_Close_Start_Message : Nat
  Session_Close_Reply_Message : Nat
  Heartbeat_Start_Message : Nat
  Heartbeat_Reply_Message : Nat
  Error_FalseVersion_Message : Nat
  Error_UnknownSession_Message : Nat
  Error_InvalidMessage_Message : Nat
  Data_SingleStatic_Message : Nat
  Data_SingleDynamic_Header : Nat
  Data_SingleReply_Message : Nat
  Data_MultiInit_Message : Nat
  Data_MultiInitReply_Message : Nat
  Data_MultiStatic_Message : Nat
  Data_MultiFinish_Message : Nat
  Data_MultiAbort_Message : Nat
deriving DecidableEq, Repr

/-- The sizes the constructor asserts on, in the order of its assertions. -/
def assertedSizes (z : MessageSizes) : List Nat :=
  [z.Session_Init_Start_Message, z.Session_Init_Reply_Message,
   z.Session_Close_Start_Message, z.Session_Close_Reply_Message,
   z.Heartbeat_Start_Message, z.Heartbeat_Reply_Message,
   z.Error_FalseVersion_Message, z.Error_UnknownSession_Message,
   z.Error_InvalidMessage_Message,
   z.Data_SingleStatic_Message, z.Data_SingleDynamic_Header, z.Data_SingleReply_Message,
   z.Data_MultiInit_Message, z.Data_MultiInitReply_Message, z.Data_MultiStatic_Message,
   z.Data_MultiFinish_Message, z.Data_MultiAbort_Message]

/-- The effects of construction and teardown, in the order they happen. -/
inductive Effect where
  | newTimerThread
  | startThread
  | acquireSessionMapLock
  | clearSessions
  | clearServers
  | releaseSessionMapLock
  | deleteTimerThread
deriving DecidableEq, Repr

/-- The constructor `SessionHandler::SessionHandler(...)`. `members` is the
object as its member initialisers leave it, `timer` the static
`m_timerThread`. A failing assertion aborts (`none`). The result is the
constructed object, the static timer thread and the effects. -/
def constructSessionHandler (z : MessageSizes) (members : SessionHandler)
    (timer : Option TimerThread)
    (sessionTarget processSession dataTarget processData errorTarget processError : Nat) :
    Option (SessionHandler × Option TimerThread × List Effect) :=
  let h := { members with
    m_sessionTarget := sessionTarget
    m_processSession := processSession
    m_dataTarget := dataTarget
    m_processData := processData
    m_errorTarget := errorTarget
    m_processError := processError }
  let started : Option TimerThread × List Effect :=
    match timer with
    | none => (some { running := true, messages := [] },
               [Effect.newTimerThread, Effect.startThread])
    | some t => (some t, [])
  if (assertedSizes z).all (fun n => n % 8 == 0) then some (h, started.1, started.2)
  else none

/-- The destructor `SessionHandler::~SessionHandler()`: under the map lock both
maps are cleared, after that the static timer thread is deleted when there is
one. Deleting the timer thread stops and frees it. -/
def destructSessionHandler (h : SessionHandler) (timer : Option TimerThread) :
    Option (SessionHandler × Option TimerThread × List Effect) :=
  if h.m_sessionMap_lock then none
  else
    let h1 := { h with m_sessionMap_lock := true }
    let h2 := { h1 with m_sessions := [] }
    let h3 := { h2 with m_servers := [] }
    let h4 := { h3 with m_sessionMap_lock := false }
    let cleared := [Effect.acquireSessionMapLock, Effect.clearSessions, Effect.clearServers,
      Effect.releaseSessionMapLock]
    match timer with
    | some _ => some (h4, none, cleared ++ [Effect.deleteTimerThread])
    | none => some (h4, none, cleared)

/-- A process with several handler objects: the live objects, the static
timer thread they share, and the effects so far. -/
structure Process where
  handlers : List SessionHandler
  m_timerThread : Option TimerThread
  effects : List Effect
deriving DecidableEq, Repr

/-- Construct one more handler object in the process. -/
def Process.construct (z : MessageSizes) (members : SessionHandler) (p : Process)
    (sessionTarget processSession dataTarget processData errorTarget processError : Nat) :
    Option Process :=
  match constructSessionHandler z members p.m_timerThread sessionTarget processSession
      dataTarget processData errorTarget processError with
  | none => none
  | some (h, timer, effects) =>
    some { handlers := p.handlers ++ [h], m_timerThread := timer,
           effects := p.effects ++ effects }

/-- Destroy the `i`-th live handler object of the process (`none` when there is
no such object or its destructor does not return). -/
def Process.destroy (p : Process) (i : Nat) : Option Process :=
  match p.handlers.get? i with
  | none => none
  | some h =>
    match destructSessionHandler h p.m_timerThread with
    | none => none
    | some (_, timer, effects) =>
      some { handlers := p.handlers.eraseIdx i, m_timerThread := timer,
             effects := p.effects ++ effects }

/-- Message sizes that are all multiples of 8. -/
def sampleSizes : MessageSizes :=
  { Session_Init_Start_Message := 24, Session_Init_Reply_Message := 24,
    Session_Close_Start_Message := 24, Session_Close_Reply_Message := 24,
    Heartbeat_Start_Message := 16, Heartbeat_Reply_Message := 16,
    Error_FalseVersion_Message := 1024, Error_UnknownSession_Message := 1024,
    Error_InvalidMessage_Message := 1024,
    Data_SingleStatic_Message := 1024, Data_SingleDynamic_Header := 24,
    Data_SingleReply_Message := 24,
    Data_MultiInit_Message := 32, Data_MultiInitReply_Message := 24,
    Data_MultiStatic_Message := 1024, Data_MultiFinish_Message := 24,
    Data_MultiAbort_Message := 24 }

/-- A process before any handler object is constructed. -/
def emptyProcess : Process :=
  { handlers := [], m_timerThread := none, effects := [] }

/-- The members of a handler object before the constructor body runs: empty
maps, counter 0, both locks free. -/
def freshMembers : SessionHandler :=
  { m_sessionTarget := 0, m_processSession := 0, m_dataTarget := 0, m_processData := 0,
    m_errorTarget := 0, m_processError := 0, m_sessions := [], m_servers := [],
    m_sessionIdCounter := 0, m_sessionMap_lock := false, m_sessionIdCounter_lock := false }

/-! ## Properties of the dispatcher -/

/-- Unfolding of the dispatcher once the header peek is known. -/
theorem processMessage_of_header (P : Protocol) (target : Nat) (st : DispatchState)
    (header : CommonMessageHeader)
    (hget : getObjectFromBuffer P st.recvBuffer = some header) :
    processMessage P target st =
      if header.version ≠ 1 then (0, st)
      else if header.type = P.SESSION_TYPE then
        callHandler .sessionHandler P.process_Session_Type header st
      else if header.type = P.HEARTBEAT_TYPE then
        callHandler .heartbeatHandler P.process_Heartbeat_Type header st
      else (0, st) := by
  unfold processMessage
  rw [hget]

/-- C1 (as stated, refuted): a buffer that holds a complete header of version 2
makes `processMessage` return 0 and send nothing, so it is not the case that
one Error-FalseVersion message is emitted and `sizeof(CommonMessageHeader)`
(16 here) is returned. -/
theorem processMessage_falseVersion_counterexample :
    (∃ header, getObjectFromBuffer sampleProtocol (stateOf (headerBytes 2 1)).recvBuffer
        = some header ∧ header.version ≠ 1) ∧
    (processMessage sampleProtocol 0 (stateOf (headerBytes 2 1))).1 = 0 ∧
    (processMessage sampleProtocol 0 (stateOf (headerBytes 2 1))).2.socket.sent = [] ∧
    ¬ ((∃ msg, (processMessage sampleProtocol 0 (stateOf (headerBytes 2 1))).2.socket.sent
          = (stateOf (headerBytes 2 1)).socket.sent ++ [msg]) ∧
       (processMessage sampleProtocol 0 (stateOf (headerBytes 2 1))).1
          = sampleProtocol.sizeofHeader) := by
  refine ⟨⟨_, rfl, by decide⟩, rfl, rfl, ?_⟩
  rintro ⟨-, h⟩
  revert h
  decide

/-- C1 (amended): for every receive buffer holding a complete header whose
version differs from 1, `processMessage` returns 0, invokes no handler and
leaves the receive buffer as it is. -/
theorem processMessage_falseVersion (P : Protocol) (target : Nat) (st : DispatchState)
    (header : CommonMessageHeader)
    (hget : getObjectFromBuffer P st.recvBuffer = some header)
    (hver : header.version ≠ 1) :
    (processMessage P target st).1 = 0 ∧
    (processMessage P target st).2.invoked = st.invoked ∧
    (processMessage P target st).2.recvBuffer = st.recvBuffer := by
  rw [processMessage_of_header P target st header hget, if_pos hver]
  exact ⟨rfl, rfl, rfl⟩

/-- Witness of `processMessage_falseVersion`: a complete header of version 2. -/
theorem processMessage_falseVersion_witness :
    (processMessage sampleProtocol 0 (stateOf (headerBytes 2 1))).1 = 0 ∧
    (processMessage sampleProtocol 0 (stateOf (headerBytes 2 1))).2.invoked
      = (stateOf (headerBytes 2 1)).invoked ∧
    (processMessage sampleProtocol 0 (stateOf (headerBytes 2 1))).2.recvBuffer
      = (stateOf (headerBytes 2 1)).recvBuffer :=
  processMessage_falseVersion sampleProtocol 0 (stateOf (headerBytes 2 1))
    (sampleDecode (headerBytes 2 1)) rfl (by decide)

/-- C3: while the receive buffer holds fewer bytes than a complete header,
`processMessage` returns 0 and changes nothing (no handler invoked, nothing
sent, buffer unchanged); after any number of calls the next call again returns
0 on the same, unchanged state. -/
theorem processMessage_incompleteHeader (P : Protocol) (target : Nat) (st : DispatchState)
    (hshort : st.recvBuffer.data.length < P.sizeofHeader) :
    processMessage P target st = (0, st) ∧
    ∀ n, processMessageTimes P target n st = st ∧
      processMessage P target (processMessageTimes P target n st) = (0, st) := by
  have h1 : processMessage P target st = (0, st) := by
    unfold processMessage getObjectFromBuffer
    rw [if_pos hshort]
  have h2 : ∀ n, processMessageTimes P target n st = st := by
    intro n
    induction n with
    | zero => rfl
    | succ n ih =>
      show processMessageTimes P target n (processMessage P target st).2 = st
      rw [h1]
      exact ih
  exact ⟨h1, fun n => ⟨h2 n, by rw [h2 n]; exact h1⟩⟩

/-- Witness of `processMessage_incompleteHeader`: three buffered bytes. -/
theorem processMessage_incompleteHeader_witness :
    [1, 1, 0].length < sampleProtocol.sizeofHeader ∧
    processMessage sampleProtocol 0 (stateOf [1, 1, 0]) = (0, stateOf [1, 1, 0]) ∧
    processMessageTimes sampleProtocol 0 5 (stateOf [1, 1, 0]) = stateOf [1, 1, 0] ∧
    processMessage sampleProtocol 0 (processMessageTimes sampleProtocol 0 5 (stateOf [1, 1, 0]))
      = (0, stateOf [1, 1, 0]) :=
  ⟨by decide,
   (processMessage_incompleteHeader sampleProtocol 0 (stateOf [1, 1, 0]) (by decide)).1,
   (processMessage_incompleteHeader sampleProtocol 0 (stateOf [1, 1, 0]) (by decide)).2 5⟩

/-- C4 (as stated, refuted): a complete header with version 1 and the unknown
type 9 makes `processMessage` return 0, which is no positive byte count. -/
theorem processMessage_unknownType_counterexample :
    (∃ header, getObjectFromBuffer sampleProtocol (stateOf (headerBytes 1 9)).recvBuffer
        = some header ∧ header.version = 1 ∧
        header.type ≠ sampleProtocol.SESSION_TYPE ∧
        header.type ≠ sampleProtocol.HEARTBEAT_TYPE ∧
        header.type ≠ sampleProtocol.ERROR_TYPE ∧
        header.type ≠ sampleProtocol.DATA_TYPE) ∧
    ¬ (0 < (processMessage sampleProtocol 0 (stateOf (headerBytes 1 9))).1) := by
  refine ⟨⟨_, rfl, rfl, ?_, ?_, ?_, ?_⟩, ?_⟩ <;> decide

/-- C4 (amended): for every header with version 1 whose type is neither
`SESSION_TYPE` nor `HEARTBEAT_TYPE`, `processMessage` invokes no handler, emits
no reply, leaves the buffer unchanged and returns 0. -/
theorem processMessage_unknownType (P : Protocol) (target : Nat) (st : DispatchState)
    (header : CommonMessageHeader)
    (hget : getObjectFromBuffer P st.recvBuffer = some header)
    (hver : header.version = 1)
    (hs : header.type ≠ P.SESSION_TYPE) (hh : header.type ≠ P.HEARTBEAT_TYPE) :
    (processMessage P target st).1 = 0 ∧
    (processMessage P target st).2.invoked = st.invoked ∧
    (processMessage P target st).2.socket = st.socket ∧
    (processMessage P target st).2.recvBuffer = st.recvBuffer := by
  have hv : ¬ header.version ≠ 1 := fun h => h hver
  rw [processMessage_of_header P target st header hget, if_neg hv, if_neg hs, if_neg hh]
  exact ⟨rfl, rfl, rfl, rfl⟩

/-- Witness of `processMessage_unknownType`: a header of the unknown type 9. -/
theorem processMessage_unknownType_witness :
    (processMessage sampleProtocol 0 (stateOf (headerBytes 1 9))).1 = 0 ∧
    (processMessage sampleProtocol 0 (stateOf (headerBytes 1 9))).2.invoked
      = (stateOf (headerBytes 1 9)).invoked ∧
    (processMessage sampleProtocol 0 (stateOf (headerBytes 1 9))).2.socket
      = (stateOf (headerBytes 1 9)).socket ∧
    (processMessage sampleProtocol 0 (stateOf (headerBytes 1 9))).2.recvBuffer
      = (stateOf (headerBytes 1 9)).recvBuffer :=
  processMessage_unknownType sampleProtocol 0 (stateOf (headerBytes 1 9))
    (sampleDecode (headerBytes 1 9)) rfl rfl (by decide) (by decide)

/-! ## Properties of the map operations -/

theorem mapFind_eq_none_iff (m : PtrMap) (id : Nat) :
    mapFind m id = none ↔ id ∉ m.map Prod.fst := by
  induction m with
  | nil => simp [mapFind]
  | cons e rest ih =>
    obtain ⟨k, v⟩ := e
    by_cases hk : k = id
    · simp [mapFind, hk]
    · have hk' : ¬ id = k := fun h => hk h.symm
      simp [mapFind, hk, hk', ih]

theorem mapFind_mapInsert_self (m : PtrMap) (id p : Nat) (h : mapFind m id = none) :
    mapFind (mapInsert m id p) id = some p := by
  induction m with
  | nil => simp [mapInsert, mapFind]
  | cons e rest ih =>
    obtain ⟨k, v⟩ := e
    have hk : ¬ k = id := by
      intro hk
      simp [mapFind, hk] at h
    have hk' : ¬ id = k := fun h' => hk h'.symm
    have hrest : mapFind rest id = none := by
      simpa [mapFind, hk] using h
    by_cases hlt : id < k
    · simp [mapInsert, hlt, mapFind]
    · simp [mapInsert, hlt, hk', mapFind, hk, ih hrest]

theorem mapFind_mapInsert_ne (m : PtrMap) (id p id' : Nat) (hne : id' ≠ id) :
    mapFind (mapInsert m id p) id' = mapFind m id' := by
  have hne' : ¬ id = id' := fun h => hne h.symm
  induction m with
  | nil => simp [mapInsert, mapFind, hne']
  | cons e rest ih =>
    obtain ⟨k, v⟩ := e
    by_cases hlt : id < k
    · simp [mapInsert, hlt, mapFind, hne']
    · by_cases hk : id = k
      · simp [mapInsert, hlt, hk]
      · simp [mapInsert, hlt, hk, mapFind, ih]

theorem mapWF_cons (k v : Nat) (rest : PtrMap) :
    mapWF ((k, v) :: rest) ↔ (∀ a ∈ rest.map Prod.fst, k < a) ∧ mapWF rest := by
  simp [mapWF, List.pairwise_cons]

theorem mapInsert_of_present (m : PtrMap) (id p q : Nat) (hwf : mapWF m)
    (h : mapFind m id = some q) : mapInsert m id p = m := by
  induction m with
  | nil => simp [mapFind] at h
  | cons e rest ih =>
    obtain ⟨k, v⟩ := e
    rw [mapWF_cons] at hwf
    by_cases hk : k = id
    · subst hk
      simp [mapInsert]
    · have hrest : mapFind rest id = some q := by
        simpa [mapFind, hk] using h
      have hmem : id ∈ rest.map Prod.fst := by
        by_contra hnot
        rw [← mapFind_eq_none_iff] at hnot
        rw [hnot] at hrest
        exact Option.noConfusion hrest
      have hlt : k < id := hwf.1 id hmem
      have h1 : ¬ id < k := Nat.lt_asymm hlt
      have h2 : ¬ id = k := fun h' => hk h'.symm
      simp [mapInsert, h1, h2, ih hwf.2 hrest]

theorem keys_mapInsert (m : PtrMap) (id p : Nat) (h : mapFind m id = none) :
    List.Perm ((mapInsert m id p).map Prod.fst) (id :: m.map Prod.fst) := by
  induction m with
  | nil => simp [mapInsert]
  | cons e rest ih =>
    obtain ⟨k, v⟩ := e
    have hk : ¬ k = id := by
      intro hk
      simp [mapFind, hk] at h
    have hk' : ¬ id = k := fun h' => hk h'.symm
    have hrest : mapFind rest id = none := by
      simpa [mapFind, hk] using h
    by_cases hlt : id < k
    · simp [mapInsert, hlt]
    · simp only [mapInsert, hlt, hk', if_false, List.map_cons]
      exact (List.Perm.cons k (ih hrest)).trans (List.Perm.swap id k _)

theorem mapWF_mapInsert (m : PtrMap) (id p : Nat) (hwf : mapWF m) :
    mapWF (mapInsert m id p) := by
  induction m with
  | nil => simp [mapInsert, mapWF]
  | cons e rest ih =>
    obtain ⟨k, v⟩ := e
    have hwf' := (mapWF_cons k v rest).1 hwf
    by_cases hlt : id < k
    · simp only [mapInsert, hlt, if_true]
      rw [mapWF_cons]
      refine ⟨?_, hwf⟩
      intro a ha
      simp only [List.map_cons, List.mem_cons] at ha
      rcases ha with ha | ha
      · rw [ha]; exact hlt
      · exact Nat.lt_trans hlt (hwf'.1 a ha)
    · by_cases hk : id = k
      · simp only [mapInsert, hlt, hk, if_true, if_false]
        simpa [hk] using hwf
      · simp only [mapInsert, hlt, hk, if_false]
        rw [mapWF_cons]
        refine ⟨?_, ih hwf'.2⟩
        intro a ha
        by_cases hfind : mapFind rest id = none
        · have hperm := keys_mapInsert rest id p hfind
          have ha' := hperm.subset ha
          simp only [List.mem_cons] at ha'
          rcases ha' with ha' | ha'
          · rw [ha']; omega
          · exact hwf'.1 a ha'
        · obtain ⟨q, hq⟩ := Option.ne_none_iff_exists'.1 hfind
          rw [mapInsert_of_present rest id p q hwf'.2 hq] at ha
          exact hwf'.1 a ha

theorem mapFind_mapErase_ne (m : PtrMap) (id id' : Nat) (hne : id' ≠ id) :
    mapFind (mapErase m id) id' = mapFind m id' := by
  induction m with
  | nil => simp [mapErase]
  | cons e rest ih =>
    obtain ⟨k, v⟩ := e
    by_cases hk : k = id
    · have hk' : ¬ k = id' := fun h => hne (h.symm.trans hk)
      simp only [mapErase, hk, if_true, mapFind]
      rw [hk] at hk'
      rw [if_neg hk']
    · simp [mapErase, hk, mapFind, ih]

theorem mapErase_sublist (m : PtrMap) (id : Nat) : List.Sublist (mapErase m id) m := by
  induction m with
  | nil => simp [mapErase]
  | cons e rest ih =>
    obtain ⟨k, v⟩ := e
    by_cases hk : k = id
    · simp [mapErase, hk]
    · simp only [mapErase, hk, if_false]
      exact List.Sublist.cons₂ _ ih

theorem keys_mapErase (m : PtrMap) (id p : Nat) (h : mapFind m id = some p) :
    List.Perm (m.map Prod.fst) (id :: (mapErase m id).map Prod.fst) := by
  induction m with
  | nil => simp [mapFind] at h
  | cons e rest ih =>
    obtain ⟨k, v⟩ := e
    by_cases hk : k = id
    · simp [mapErase, hk]
    · have hrest : mapFind rest id = some p := by
        simpa [mapFind, hk] using h
      simp only [mapErase, hk, if_false, List.map_cons]
      exact (List.Perm.cons k (ih hrest)).trans (List.Perm.swap id k _)

theorem mapWF_mapErase (m : PtrMap) (id : Nat) (hwf : mapWF m) : mapWF (mapErase m id) :=
  List.Pairwise.sublist ((mapErase_sublist m id).map Prod.fst) hwf

theorem mapFind_mapErase_self (m : PtrMap) (id : Nat) (hwf : mapWF m) :
    mapFind (mapErase m id) id = none := by
  induction m with
  | nil => simp [mapErase, mapFind]
  | cons e rest ih =>
    obtain ⟨k, v⟩ := e
    have hwf' := (mapWF_cons k v rest).1 hwf
    by_cases hk : k = id
    · simp only [mapErase, hk, if_true]
      rw [mapFind_eq_none_iff]
      intro hmem
      have := hwf'.1 id hmem
      omega
    · simp [mapErase, hk, mapFind, ih hwf'.2]

/-! ## Properties of the registry operations -/

/-- The result of `addSession` when the map lock is free. -/
theorem addSession_eq (s : State) (id session : Nat)
    (hlock : s.handler.m_sessionMap_lock = false) :
    ∃ s1, addSession s id session = some s1 ∧
      s1.handler.m_sessions = mapInsert s.handler.m_sessions id session ∧
      s1.handler.m_sessionMap_lock = false ∧
      s1.heap session = copyCallbacks s.handler (s.heap session) := by
  refine ⟨_, by simp only [addSession, hlock]; rfl, rfl, rfl, ?_⟩
  simp [copyCallbacks]

/-- The result of `removeSession` when the map lock is free. -/
theorem removeSession_eq (s : State) (id : Nat)
    (hlock : s.handler.m_sessionMap_lock = false) :
    ∃ s1, removeSession s id = some (mapFind s.handler.m_sessions id, s1) ∧
      s1.handler.m_sessions
        = (if (mapFind s.handler.m_sessions id).isSome
            then mapErase s.handler.m_sessions id else s.handler.m_sessions) ∧
      s1.handler.m_sessionMap_lock = false := by
  cases hfind : mapFind s.handler.m_sessions id with
  | none =>
    refine ⟨{ s with handler := { s.handler with m_sessionMap_lock := false } }, ?_, ?_, ?_⟩
    · simp only [removeSession, hlock]
      simp only [Bool.false_eq_true, if_false, hfind]
    · simp
    · rfl
  | some p =>
    refine ⟨{ s with handler := { s.handler with
        m_sessions := mapErase s.handler.m_sessions id, m_sessionMap_lock := false } },
      ?_, ?_, ?_⟩
    · simp only [removeSession, hlock]
      simp only [Bool.false_eq_true, if_false, hfind]
    · simp
    · rfl

/-- The result of `increaseSessionIdCounter` when the counter lock is free. -/
theorem increaseSessionIdCounter_eq (s : State)
    (hlock : s.handler.m_sessionIdCounter_lock = false) :
    ∃ s1, increaseSessionIdCounter s
        = some ((s.handler.m_sessionIdCounter + 1) % 2 ^ 16, s1) ∧
      s1.handler.m_sessionIdCounter = (s.handler.m_sessionIdCounter + 1) % 2 ^ 16 ∧
      s1.handler.m_sessionIdCounter_lock = false := by
  refine ⟨{ s with handler := { s.handler with
      m_sessionIdCounter := (s.handler.m_sessionIdCounter + 1) % 2 ^ 16,
      m_sessionIdCounter_lock := false } }, ?_, rfl, rfl⟩
  simp only [increaseSessionIdCounter, hlock]
  rfl

/-- C5 (as stated, refuted): with the flags byte 3, whose bit 0 is set,
`sendMessage` registers nothing with the timer thread. -/
theorem sendMessage_flags3_counterexample :
    (headerWithFlags 3).flags % 2 = 1 ∧
    trackedEntries (sampleState [] 0) = [] ∧
    (sendMessage (sampleState [] 0) 100 (headerWithFlags 3) [1, 2, 3] 3).map trackedEntries
      = some [] := by
  refine ⟨rfl, rfl, rfl⟩

/-- C5 (amended): with a timer thread in place, `sendMessage` registers the
tracked entry (header.type, header.sessionId, header.messageId, session) if and
only if the flags byte of the header equals 1; for every other value of the
flags byte the tracked entries stay as they are. -/
theorem sendMessage_registers_iff (s : State) (t : TimerThread) (session : Nat)
    (header : CommonMessageHeader) (data : List Nat) (size : Nat)
    (htimer : s.m_timerThread = some t) :
    ∃ s1, sendMessage s session header data size = some s1 ∧
      trackedEntries s1 =
        (if header.flags = 1 then
          trackedEntries s ++ [{ type := header.type, sessionId := header.sessionId,
                                 messageId := header.messageId, session := session }]
         else trackedEntries s) ∧
      (trackedEntries s1 =
          trackedEntries s ++ [{ type := header.type, sessionId := header.sessionId,
                                 messageId := header.messageId, session := session }]
        ↔ header.flags = 1) := by
  by_cases hf : header.flags = 1
  · refine ⟨socketSend { s with m_timerThread := some (t.addMessage header.type
        header.sessionId header.messageId session) } session data size,
      by simp only [sendMessage, hf, htimer, if_true], ?_, ?_⟩
    · simp [trackedEntries, socketSend, TimerThread.addMessage, htimer, hf]
    · simp [trackedEntries, socketSend, TimerThread.addMessage, htimer, hf]
  · refine ⟨socketSend s session data size, by simp only [sendMessage, hf, if_false], ?_, ?_⟩
    · simp [trackedEntries, socketSend, htimer, hf]
    · simp [trackedEntries, socketSend, htimer, hf]

/-- Witness of `sendMessage_registers_iff`: the flags byte 1 registers the
entry, on a state with an empty running timer thread. -/
theorem sendMessage_registers_iff_witness :
    ∃ s1, sendMessage (sampleState [] 0) 100 (headerWithFlags 1) [1, 2, 3] 3 = some s1 ∧
      trackedEntries s1 =
        (if (headerWithFlags 1).flags = 1 then
          trackedEntries (sampleState [] 0) ++
            [{ type := (headerWithFlags 1).type, sessionId := (headerWithFlags 1).sessionId,
               messageId := (headerWithFlags 1).messageId, session := 100 }]
         else trackedEntries (sampleState [] 0)) ∧
      (trackedEntries s1 =
          trackedEntries (sampleState [] 0) ++
            [{ type := (headerWithFlags 1).type, sessionId := (headerWithFlags 1).sessionId,
               messageId := (headerWithFlags 1).messageId, session := 100 }]
        ↔ (headerWithFlags 1).flags = 1) :=
  sendMessage_registers_iff (sampleState [] 0) { running := true, messages := [] } 100
    (headerWithFlags 1) [1, 2, 3] 3 rfl

/-- C6: with the map lock free and `id` not registered, `addSession(id, session)`
ends with `id` mapped to `session`, every other id mapped as before, and the
three callback pairs of the session equal to the ones of the handler. -/
theorem addSession_absent (s : State) (id session : Nat)
    (hlock : s.handler.m_sessionMap_lock = false)
    (habsent : mapFind s.handler.m_sessions id = none) :
    ∃ s1, addSession s id session = some s1 ∧
      mapFind s1.handler.m_sessions id = some session ∧
      (∀ id', id' ≠ id →
        mapFind s1.handler.m_sessions id' = mapFind s.handler.m_sessions id') ∧
      (s1.heap session).m_sessionTarget = s.handler.m_sessionTarget ∧
      (s1.heap session).m_processSession = s.handler.m_processSession ∧
      (s1.heap session).m_dataTarget = s.handler.m_dataTarget ∧
      (s1.heap session).m_processData = s.handler.m_processData ∧
      (s1.heap session).m_errorTarget = s.handler.m_errorTarget ∧
      (s1.heap session).m_processError = s.handler.m_processError := by
  obtain ⟨s1, h1, hm, -, hheap⟩ := addSession_eq s id session hlock
  refine ⟨s1, h1, ?_, ?_, ?_⟩
  · rw [hm]; exact mapFind_mapInsert_self _ _ _ habsent
  · intro id' hne
    rw [hm]; exact mapFind_mapInsert_ne _ _ _ _ hne
  · rw [hheap]
    exact ⟨rfl, rfl, rfl, rfl, rfl, rfl⟩

/-- Witness of `addSession_absent`: id 5 is added to a registry holding id 3. -/
theorem addSession_absent_witness :
    ∃ s1, addSession (sampleState [(3, 100)] 0) 5 101 = some s1 ∧
      mapFind s1.handler.m_sessions 5 = some 101 ∧
      (∀ id', id' ≠ 5 →
        mapFind s1.handler.m_sessions id'
          = mapFind (sampleState [(3, 100)] 0).handler.m_sessions id') ∧
      (s1.heap 101).m_sessionTarget = (sampleState [(3, 100)] 0).handler.m_sessionTarget ∧
      (s1.heap 101).m_processSession = (sampleState [(3, 100)] 0).handler.m_processSession ∧
      (s1.heap 101).m_dataTarget = (sampleState [(3, 100)] 0).handler.m_dataTarget ∧
      (s1.heap 101).m_processData = (sampleState [(3, 100)] 0).handler.m_processData ∧
      (s1.heap 101).m_errorTarget = (sampleState [(3, 100)] 0).handler.m_errorTarget ∧
      (s1.heap 101).m_processError = (sampleState [(3, 100)] 0).handler.m_processError :=
  addSession_absent (sampleState [(3, 100)] 0) 5 101 rfl (by decide)

/-- C7: with the map lock free and `id` already registered, `addSession(id,
session)` returns normally and leaves the session map exactly as it was: the
session registered earlier under `id` stays and no other entry changes. -/
theorem addSession_present (s : State) (id session old : Nat)
    (hlock : s.handler.m_sessionMap_lock = false)
    (hwf : mapWF s.handler.m_sessions)
    (hpresent : mapFind s.handler.m_sessions id = some old) :
    ∃ s1, addSession s id session = some s1 ∧
      s1.handler.m_sessions = s.handler.m_sessions ∧
      mapFind s1.handler.m_sessions id = some old := by
  obtain ⟨s1, h1, hm, -, -⟩ := addSession_eq s id session hlock
  have hsame : s1.handler.m_sessions = s.handler.m_sessions := by
    rw [hm]; exact mapInsert_of_present _ _ _ _ hwf hpresent
  exact ⟨s1, h1, hsame, by rw [hsame]; exact hpresent⟩

/-- Witness of `addSession_present`: id 3 is registered a second time. -/
theorem addSession_present_witness :
    ∃ s1, addSession (sampleState [(3, 100), (5, 101)] 0) 3 102 = some s1 ∧
      s1.handler.m_sessions = (sampleState [(3, 100), (5, 101)] 0).handler.m_sessions ∧
      mapFind s1.handler.m_sessions 3 = some 100 :=
  addSession_present (sampleState [(3, 100), (5, 101)] 0) 3 102 100 rfl (by decide)
    (by decide)

/-- C8: with the map lock free, `removeSession(id)` on a registered id returns
the session registered under it and ends with `id` unregistered and every other
id mapped as before; on an unregistered id it returns null and leaves the
session map unchanged. -/
theorem removeSession_spec (s : State) (id : Nat)
    (hlock : s.handler.m_sessionMap_lock = false)
    (hwf : mapWF s.handler.m_sessions) :
    (∀ p, mapFind s.handler.m_sessions id = some p →
      ∃ s1, removeSession s id = some (some p, s1) ∧
        mapFind s1.handler.m_sessions id = none ∧
        ∀ id', id' ≠ id →
          mapFind s1.handler.m_sessions id' = mapFind s.handler.m_sessions id') ∧
    (mapFind s.handler.m_sessions id = none →
      ∃ s1, removeSession s id = some (none, s1) ∧
        s1.handler.m_sessions = s.handler.m_sessions) := by
  obtain ⟨s1, h1, hm, -⟩ := removeSession_eq s id hlock
  constructor
  · intro p hp
    rw [hp] at h1 hm
    simp only [Option.isSome_some, if_true] at hm
    refine ⟨s1, h1, ?_, ?_⟩
    · rw [hm]; exact mapFind_mapErase_self _ _ hwf
    · intro id' hne
      rw [hm]; exact mapFind_mapErase_ne _ _ _ hne
  · intro hnone
    rw [hnone] at h1 hm
    exact ⟨s1, h1, by simpa using hm⟩

/-- Witness of `removeSession_spec`: id 3 is removed from a registry holding
the ids 3 and 5. -/
theorem removeSession_spec_witness :
    ∃ s1, removeSession (sampleState [(3, 100), (5, 101)] 0) 3 = some (some 100, s1) ∧
      mapFind s1.handler.m_sessions 3 = none ∧
      ∀ id', id' ≠ 3 →
        mapFind s1.handler.m_sessions id'
          = mapFind (sampleState [(3, 100), (5, 101)] 0).handler.m_sessions id' :=
  (removeSession_spec (sampleState [(3, 100), (5, 101)] 0) 3 rfl (by decide)).1 100
    (by decide)

/-- Registering pairwise distinct, unregistered ids one after the other. -/
theorem addSessions_spec (entries : List (Nat × Nat)) :
    ∀ s : State, s.handler.m_sessionMap_lock = false → mapWF s.handler.m_sessions →
      (entries.map Prod.fst).Nodup →
      (∀ e ∈ entries, mapFind s.handler.m_sessions e.1 = none) →
      ∃ s1, addSessions s entries = some s1 ∧
        s1.handler.m_sessionMap_lock = false ∧
        mapWF s1.handler.m_sessions ∧
        List.Perm (s1.handler.m_sessions.map Prod.fst)
          (entries.map Prod.fst ++ s.handler.m_sessions.map Prod.fst) ∧
        (∀ e ∈ entries, mapFind s1.handler.m_sessions e.1 = some e.2) ∧
        (∀ id', id' ∉ entries.map Prod.fst →
          mapFind s1.handler.m_sessions id' = mapFind s.handler.m_sessions id') := by
  induction entries with
  | nil =>
    intro s hlock hwf _ _
    exact ⟨s, rfl, hlock, hwf, by simp, by simp, fun _ _ => rfl⟩
  | cons e rest ih =>
    obtain ⟨id, p⟩ := e
    intro s hlock hwf hnodup habsent
    obtain ⟨sa, ha, hma, hlocka, -⟩ := addSession_eq s id p hlock
    have hnd : id ∉ rest.map Prod.fst ∧ (rest.map Prod.fst).Nodup :=
      List.nodup_cons.1 hnodup
    have hid : mapFind s.handler.m_sessions id = none :=
      habsent (id, p) (List.mem_cons_self _ _)
    have hwfa : mapWF sa.handler.m_sessions := by
      rw [hma]; exact mapWF_mapInsert _ _ _ hwf
    have hrest : ∀ e ∈ rest, mapFind sa.handler.m_sessions e.1 = none := by
      intro e he
      have hne : e.1 ≠ id := by
        intro h
        exact hnd.1 (h ▸ List.mem_map_of_mem Prod.fst he)
      rw [hma, mapFind_mapInsert_ne _ _ _ _ hne]
      exact habsent e (List.mem_cons_of_mem _ he)
    obtain ⟨s1, h1, hlock1, hwf1, hperm1, hfind1, hother1⟩ :=
      ih sa hlocka hwfa hnd.2 hrest
    refine ⟨s1, ?_, hlock1, hwf1, ?_, ?_, ?_⟩
    · simp only [addSessions, ha]
      exact h1
    · have hk : List.Perm (sa.handler.m_sessions.map Prod.fst)
          (id :: s.handler.m_sessions.map Prod.fst) := by
        rw [hma]; exact keys_mapInsert _ _ _ hid
      have h2 : List.Perm (rest.map Prod.fst ++ sa.handler.m_sessions.map Prod.fst)
          (rest.map Prod.fst ++ id :: s.handler.m_sessions.map Prod.fst) :=
        List.Perm.append_left _ hk
      exact (hperm1.trans h2).trans List.perm_middle
    · intro e he
      rcases List.mem_cons.1 he with he | he
      · subst he
        rw [hother1 id hnd.1, hma]
        exact mapFind_mapInsert_self _ _ _ hid
      · exact hfind1 e he
    · intro id' hid'
      have hne : id' ≠ id := by
        intro h
        exact hid' (by simp [h])
      have hnr : id' ∉ rest.map Prod.fst := by
        intro h
        exact hid' (by simp only [List.map_cons, List.mem_cons]; exact Or.inr h)
      rw [hother1 id' hnr, hma]
      exact mapFind_mapInsert_ne _ _ _ _ hne

/-- Removing every registered id once, in the order given. -/
theorem removeSessions_spec (order : List Nat) :
    ∀ s : State, s.handler.m_sessionMap_lock = false → mapWF s.handler.m_sessions →
      order.Nodup →
      List.Perm (s.handler.m_sessions.map Prod.fst) order →
      ∃ s2, removeSessions s order
          = some (order.map (mapFind s.handler.m_sessions), s2) ∧
        s2.handler.m_sessions = [] ∧
        s2.handler.m_sessionMap_lock = false := by
  induction order with
  | nil =>
    intro s hlock _ _ hperm
    refine ⟨s, rfl, ?_, hlock⟩
    have := List.Perm.eq_nil hperm
    exact List.map_eq_nil_iff.1 this
  | cons id rest ih =>
    intro s hlock hwf hnodup hperm
    obtain ⟨sa, ha, hma, hlocka⟩ := removeSession_eq s id hlock
    have hnd := List.nodup_cons.1 hnodup
    have hmem : id ∈ s.handler.m_sessions.map Prod.fst :=
      hperm.symm.subset (List.mem_cons_self _ _)
    have hsome : mapFind s.handler.m_sessions id ≠ none := by
      intro h
      exact (mapFind_eq_none_iff _ _).1 h hmem
    obtain ⟨p, hp⟩ := Option.ne_none_iff_exists'.1 hsome
    rw [hp] at hma
    simp only [Option.isSome_some, if_true] at hma
    have hwfa : mapWF sa.handler.m_sessions := by
      rw [hma]; exact mapWF_mapErase _ _ hwf
    have hperma : List.Perm (sa.handler.m_sessions.map Prod.fst) rest := by
      rw [hma]
      have h1 := keys_mapErase _ _ _ hp
      exact List.Perm.cons_inv (h1.symm.trans hperm)
    obtain ⟨s2, h2, hempty, hlock2⟩ := ih sa hlocka hwfa hnd.2 hperma
    refine ⟨s2, ?_, hempty, hlock2⟩
    simp only [removeSessions, ha, h2, List.map_cons]
    have hmap : List.map (mapFind sa.handler.m_sessions) rest
        = List.map (mapFind s.handler.m_sessions) rest := by
      apply List.map_congr_left
      intro id' hid'
      have hne : id' ≠ id := by
        intro h
        exact hnd.1 (h ▸ hid')
      rw [hma]
      exact mapFind_mapErase_ne _ _ _ hne
    rw [hmap]

/-- C9: register pairwise distinct ids on an empty registry (map lock free),
then remove every id once, in any order: all calls return, the removals return
exactly the registered (id, session) pairs, each once, and the registry ends
empty. -/
theorem addSessions_removeSessions (s : State) (entries : List (Nat × Nat))
    (order : List Nat)
    (hlock : s.handler.m_sessionMap_lock = false)
    (hempty : s.handler.m_sessions = [])
    (hdistinct : (entries.map Prod.fst).Nodup)
    (horder : List.Perm order (entries.map Prod.fst)) :
    ∃ s1 rets s2, addSessions s entries = some s1 ∧
      removeSessions s1 order = some (rets, s2) ∧
      s2.handler.m_sessions = [] ∧
      List.Perm (order.zip rets) (entries.map (fun e => (e.1, some e.2))) := by
  have hwf : mapWF s.handler.m_sessions := by
    rw [hempty]; simp [mapWF]
  have habsent : ∀ e ∈ entries, mapFind s.handler.m_sessions e.1 = none := by
    intro e _
    rw [hempty]; rfl
  obtain ⟨s1, h1, hlock1, hwf1, hperm1, hfind1, -⟩ :=
    addSessions_spec entries s hlock hwf hdistinct habsent
  have hkeys : List.Perm (s1.handler.m_sessions.map Prod.fst) order := by
    rw [hempty] at hperm1
    simp only [List.map_nil, List.append_nil] at hperm1
    exact hperm1.trans horder.symm
  have hnd : order.Nodup := horder.nodup_iff.2 hdistinct
  obtain ⟨s2, h2, hempty2, -⟩ := removeSessions_spec order s1 hlock1 hwf1 hnd hkeys
  refine ⟨s1, _, s2, h1, h2, hempty2, ?_⟩
  have hzip : order.zip (order.map (mapFind s1.handler.m_sessions))
      = order.map (fun id => (id, mapFind s1.handler.m_sessions id)) := by
    rw [List.zip_map_right]
    simp [List.zip_eq_zipWith, List.zipWith_same, Prod.map]
  rw [hzip]
  have hp := List.Perm.map (fun id => (id, mapFind s1.handler.m_sessions id)) horder
  refine hp.trans ?_
  rw [List.map_map]
  apply List.Perm.of_eq
  apply List.map_congr_left
  intro e he
  simp only [Function.comp_apply, hfind1 e he]

/-- Witness of `addSessions_removeSessions`: the ids 4, 2 and 9 are registered
and removed in the order 9, 4, 2. -/
theorem addSessions_removeSessions_witness :
    ∃ s1 rets s2, addSessions (sampleState [] 0) [(4, 100), (2, 101), (9, 102)] = some s1 ∧
      removeSessions s1 [9, 4, 2] = some (rets, s2) ∧
      s2.handler.m_sessions = [] ∧
      List.Perm ([9, 4, 2].zip rets)
        ([(4, 100), (2, 101), (9, 102)].map (fun e => (e.1, some e.2))) :=
  addSessions_removeSessions (sampleState [] 0) [(4, 100), (2, 101), (9, 102)] [9, 4, 2]
    rfl rfl (by decide) (by decide)

/-- C10 (as stated, refuted): from the counter value 65534 the first call
returns 65535 and the next call returns 0, which is not greater. -/
theorem increaseSessionIdCounter_counterexample :
    ∃ s1 s2, increaseSessionIdCounter (sampleState [] 65534) = some (65535, s1) ∧
      increaseSessionIdCounter s1 = some (0, s2) ∧ ¬ (65535 < 0) :=
  ⟨_, _, rfl, rfl, by decide⟩

/-- C10 (amended): with the counter lock free, two successive calls of
`increaseSessionIdCounter` both return, and the second id is strictly greater
than the first whenever the first is below 65535; after the id 65535 the next
id is 0. -/
theorem increaseSessionIdCounter_successive (s : State)
    (hlock : s.handler.m_sessionIdCounter_lock = false) :
    ∃ a s1 b s2, increaseSessionIdCounter s = some (a, s1) ∧
      increaseSessionIdCounter s1 = some (b, s2) ∧
      (a < 65535 → a < b) ∧ (a = 65535 → b = 0) ∧ (a < 65535 ∨ a = 65535) := by
  obtain ⟨s1, h1, hc1, hlock1⟩ := increaseSessionIdCounter_eq s hlock
  obtain ⟨s2, h2, -, -⟩ := increaseSessionIdCounter_eq s1 hlock1
  rw [hc1] at h2
  refine ⟨_, s1, _, s2, h1, h2, ?_, ?_, ?_⟩
  · intro h
    omega
  · intro h
    omega
  · omega

/-- Witness of `increaseSessionIdCounter_successive`: a fresh counter. -/
theorem increaseSessionIdCounter_successive_witness :
    ∃ a s1 b s2, increaseSessionIdCounter (sampleState [] 0) = some (a, s1) ∧
      increaseSessionIdCounter s1 = some (b, s2) ∧
      (a < 65535 → a < b) ∧ (a = 65535 → b = 0) ∧ (a < 65535 ∨ a = 65535) :=
  increaseSessionIdCounter_successive (sampleState [] 0) rfl

/-- C11: with the counter lock free, `increaseSessionIdCounter` on a counter `c`
returns `(c + 1) mod 2^16`, leaves the counter equal to the returned value and
leaves the session map and the server map as they were. -/
theorem increaseSessionIdCounter_spec (s : State)
    (hlock : s.handler.m_sessionIdCounter_lock = false) :
    ∃ s1, increaseSessionIdCounter s
        = some ((s.handler.m_sessionIdCounter + 1) % 2 ^ 16, s1) ∧
      s1.handler.m_sessionIdCounter = (s.handler.m_sessionIdCounter + 1) % 2 ^ 16 ∧
      s1.handler.m_sessions = s.handler.m_sessions ∧
      s1.handler.m_servers = s.handler.m_servers := by
  refine ⟨{ s with handler := { s.handler with
      m_sessionIdCounter := (s.handler.m_sessionIdCounter + 1) % 2 ^ 16,
      m_sessionIdCounter_lock := false } }, ?_, rfl, rfl, rfl⟩
  simp only [increaseSessionIdCounter, hlock]
  rfl

/-- Witness of `increaseSessionIdCounter_spec`: the counter 41 with two
registered sessions. -/
theorem increaseSessionIdCounter_spec_witness :
    ∃ s1, increaseSessionIdCounter (sampleState [(3, 100), (5, 101)] 41)
        = some (((sampleState [(3, 100), (5, 101)] 41).handler.m_sessionIdCounter + 1) % 2 ^ 16,
            s1) ∧
      s1.handler.m_sessionIdCounter
        = ((sampleState [(3, 100), (5, 101)] 41).handler.m_sessionIdCounter + 1) % 2 ^ 16 ∧
      s1.handler.m_sessions = (sampleState [(3, 100), (5, 101)] 41).handler.m_sessions ∧
      s1.handler.m_servers = (sampleState [(3, 100), (5, 101)] 41).handler.m_servers :=
  increaseSessionIdCounter_spec (sampleState [(3, 100), (5, 101)] 41) rfl

/-- C13 (as stated, refuted): session 7 is registered, a message of session 7
is sent with the tracked flag, then `removeSession(7)` returns the session; the
timer thread still holds the tracked entry of session 7. -/
theorem removeSession_keeps_entries_counterexample :
    ∃ s1 s2, sendMessage (sampleState [(7, 100)] 0) 100 (headerWithFlags 1) [1, 2, 3] 3
        = some s1 ∧
      removeSession s1 7 = some (some 100, s2) ∧
      ¬ (∀ e ∈ trackedEntries s2, e.sessionId ≠ 7) := by
  refine ⟨_, _, rfl, rfl, ?_⟩
  intro h
  exact h { type := 4, sessionId := 7, messageId := 9, session := 100 }
    (List.mem_singleton.2 rfl) rfl

/-- C13 (amended): with the map lock free, `removeSession(id)` returns and does
not touch the timer thread: the tracked entries after the removal are exactly
the ones before it. -/
theorem removeSession_timer_unchanged (s : State) (id : Nat)
    (hlock : s.handler.m_sessionMap_lock = false) :
    ∃ ret s1, removeSession s id = some (ret, s1) ∧
      s1.m_timerThread = s.m_timerThread ∧
      trackedEntries s1 = trackedEntries s := by
  cases hfind : mapFind s.handler.m_sessions id with
  | none =>
    refine ⟨none, { s with handler := { s.handler with m_sessionMap_lock := false } },
      ?_, rfl, rfl⟩
    simp only [removeSession, hlock]
    simp only [Bool.false_eq_true, if_false, hfind]
  | some p =>
    refine ⟨some p, { s with handler := { s.handler with
        m_sessions := mapErase s.handler.m_sessions id, m_sessionMap_lock := false } },
      ?_, rfl, rfl⟩
    simp only [removeSession, hlock]
    simp only [Bool.false_eq_true, if_false, hfind]

/-- Witness of `removeSession_timer_unchanged`: session 7 is removed from a
registry holding the sessions 3 and 7. -/
theorem removeSession_timer_unchanged_witness :
    ∃ ret s1, removeSession (sampleState [(3, 100), (7, 101)] 0) 7 = some (ret, s1) ∧
      s1.m_timerThread = (sampleState [(3, 100), (7, 101)] 0).m_timerThread ∧
      trackedEntries s1 = trackedEntries (sampleState [(3, 100), (7, 101)] 0) :=
  removeSession_timer_unchanged (sampleState [(3, 100), (7, 101)] 0) 7 rfl

/-- C15: the three transport entry points are `processMessage`: for every
target, receive buffer and socket each of them returns what `processMessage`
returns and leaves the same state behind. -/
theorem processMessage_transports (P : Protocol) (target : Nat) (st : DispatchState) :
    processMessageTcp P target st = processMessage P target st ∧
    processMessageTlsTcp P target st = processMessage P target st ∧
    processMessageUnixDomain P target st = processMessage P target st :=
  ⟨rfl, rfl, rfl⟩

/-- The loop of `sendHeartBeats` invokes `sendHeartbeat` on the session of each
entry, in order, and does not change the members of the handler. -/
theorem heartbeatLoop_spec (hb : HeartbeatSender) (m : PtrMap) :
    ∀ s : State, (heartbeatLoop hb m s).1 = m.map Prod.snd ∧
      (heartbeatLoop hb m s).2.handler = s.handler := by
  induction m with
  | nil => intro s; exact ⟨rfl, rfl⟩
  | cons e rest ih =>
    obtain ⟨k, session⟩ := e
    intro s
    have h := ih { s with heap := (hb session s.heap s.m_timerThread).1,
                          m_timerThread := (hb session s.heap s.m_timerThread).2 }
    constructor
    · simp only [heartbeatLoop, List.map_cons]
      rw [h.1]
    · simp only [heartbeatLoop]
      rw [h.2]

/-- A handler whose map lock is free is not changed by clearing the lock. -/
theorem clear_free_lock (h : SessionHandler) (hlock : h.m_sessionMap_lock = false) :
    { h with m_sessionMap_lock := false } = h := by
  cases h
  simp only [SessionHandler.mk.injEq, true_and]
  simp at hlock
  simp [hlock]

/-- The result of `sendHeartBeats` when the map lock is free. -/
theorem sendHeartBeats_eq (hb : HeartbeatSender) (s : State)
    (hlock : s.handler.m_sessionMap_lock = false) :
    ∃ s1, sendHeartBeats hb s = some (s.handler.m_sessions.map Prod.snd, s1) ∧
      s1.handler = s.handler := by
  have hm : ¬ (s.handler.m_sessionMap_lock = true) := by simp [hlock]
  obtain ⟨r, hr⟩ : ∃ r, r = heartbeatLoop hb s.handler.m_sessions
      { s with handler := { s.handler with m_sessionMap_lock := true } } := ⟨_, rfl⟩
  have hloop := heartbeatLoop_spec hb s.handler.m_sessions
    { s with handler := { s.handler with m_sessionMap_lock := true } }
  rw [← hr] at hloop
  refine ⟨{ r.2 with handler := { r.2.handler with m_sessionMap_lock := false } }, ?_, ?_⟩
  · unfold sendHeartBeats
    rw [if_neg hm, ← hloop.1, hr]
  · show { r.2.handler with m_sessionMap_lock := false } = s.handler
    rw [hloop.2]
    exact clear_free_lock s.handler hlock

/-- The loop of `sendHeartBeats` leaves the session objects and the timer
thread as the calls of `sendHeartbeat` leave them, one call after the other in
the order of the entries. -/
theorem heartbeatLoop_effect (hb : HeartbeatSender) (m : PtrMap) :
    ∀ s : State,
      ((heartbeatLoop hb m s).2.heap, (heartbeatLoop hb m s).2.m_timerThread)
        = (m.map Prod.snd).foldl (fun w session => hb session w.1 w.2)
            (s.heap, s.m_timerThread) := by
  induction m with
  | nil => intro s; rfl
  | cons e rest ih =>
    obtain ⟨k, session⟩ := e
    intro s
    have h := ih { s with heap := (hb session s.heap s.m_timerThread).1,
                          m_timerThread := (hb session s.heap s.m_timerThread).2 }
    simp only [heartbeatLoop, List.map_cons, List.foldl_cons]
    exact h

/-- The number of invocations on a session, counted in the sessions of the map
entries, is the number of ids the session is registered under. -/
theorem count_sessions (m : PtrMap) (session : Nat) :
    (m.map Prod.snd).count session = (m.filter (fun e => e.2 = session)).length := by
  induction m with
  | nil => rfl
  | cons e rest ih =>
    by_cases he : e.2 = session
    · simp [List.count_cons, List.filter_cons, he, ih]
    · simp [List.count_cons, List.filter_cons, he, ih]

/-- The complete result of `sendHeartBeats` when the map lock is free. -/
theorem sendHeartBeats_effect (hb : HeartbeatSender) (s : State)
    (hlock : s.handler.m_sessionMap_lock = false) :
    ∃ s1, sendHeartBeats hb s = some (s.handler.m_sessions.map Prod.snd, s1) ∧
      s1.handler = s.handler ∧
      (s1.heap, s1.m_timerThread)
        = (s.handler.m_sessions.map Prod.snd).foldl (fun w session => hb session w.1 w.2)
            (s.heap, s.m_timerThread) := by
  have hm : ¬ (s.handler.m_sessionMap_lock = true) := by simp [hlock]
  obtain ⟨r, hr⟩ : ∃ r, r = heartbeatLoop hb s.handler.m_sessions
      { s with handler := { s.handler with m_sessionMap_lock := true } } := ⟨_, rfl⟩
  have hloop := heartbeatLoop_spec hb s.handler.m_sessions
    { s with handler := { s.handler with m_sessionMap_lock := true } }
  have heff := heartbeatLoop_effect hb s.handler.m_sessions
    { s with handler := { s.handler with m_sessionMap_lock := true } }
  rw [← hr] at hloop heff
  refine ⟨{ r.2 with handler := { r.2.handler with m_sessionMap_lock := false } }, ?_, ?_, ?_⟩
  · unfold sendHeartBeats
    rw [if_neg hm, ← hloop.1, hr]
  · show { r.2.handler with m_sessionMap_lock := false } = s.handler
    rw [hloop.2]
    exact clear_free_lock s.handler hlock
  · exact heff

/-- C16 (as stated, refuted): the session 100 is registered under the ids 3 and
5 by two `addSession` calls; `sendHeartBeats` then invokes `sendHeartbeat` on
it twice, not once, and two heartbeat messages go out on its socket. -/
theorem sendHeartBeats_counterexample :
    ∃ s0 log s1, addSessions (sampleState [] 0) [(3, 100), (5, 100)] = some s0 ∧
      s0.handler.m_sessions = [(3, 100), (5, 100)] ∧
      sendHeartBeats sampleHeartbeat s0 = some (log, s1) ∧
      log = [100, 100] ∧
      (s1.heap 100).m_socket.sent = [[2, 1], [2, 1]] ∧
      ¬ (log.count 100 = 1) := by
  refine ⟨_, _, _, rfl, rfl, rfl, rfl, ?_, ?_⟩
  · decide
  · decide

/-- C16 (amended): with the map lock free, `sendHeartBeats` returns after
invoking `sendHeartbeat` once per entry of the session map, in key order, on
the session of that entry and on nothing else: a session gets as many
invocations as it has ids registered. The session objects and the timer thread
end as these invocations leave them, one after the other, and the members of
the handler (the ids and the session registered under each among them) are
unchanged. -/
theorem sendHeartBeats_spec (hb : HeartbeatSender) (s : State)
    (hlock : s.handler.m_sessionMap_lock = false) :
    ∃ log s1, sendHeartBeats hb s = some (log, s1) ∧
      log = s.handler.m_sessions.map Prod.snd ∧
      (∀ session, log.count session
        = (s.handler.m_sessions.filter (fun e => e.2 = session)).length) ∧
      (s1.heap, s1.m_timerThread)
        = log.foldl (fun w session => hb session w.1 w.2) (s.heap, s.m_timerThread) ∧
      s1.handler.m_sessions = s.handler.m_sessions ∧
      s1.handler = s.handler := by
  obtain ⟨s1, h1, hh, heff⟩ := sendHeartBeats_effect hb s hlock
  exact ⟨_, s1, h1, rfl, fun session => count_sessions _ session, heff, by rw [hh], hh⟩

/-- Witness of `sendHeartBeats_spec`: a registry with the sessions 100 and 101
under the ids 3 and 5; each gets one heartbeat on its socket, session 102
none. -/
theorem sendHeartBeats_spec_witness :
    ∃ log s1, sendHeartBeats sampleHeartbeat (sampleState [(3, 100), (5, 101)] 0)
        = some (log, s1) ∧
      log = [100, 101] ∧
      log.count 100 = 1 ∧ log.count 101 = 1 ∧ log.count 102 = 0 ∧
      (s1.heap 100).m_socket.sent = [[2, 1]] ∧
      (s1.heap 101).m_socket.sent = [[2, 1]] ∧
      (s1.heap 102).m_socket.sent = [] ∧
      s1.m_timerThread = (sampleState [(3, 100), (5, 101)] 0).m_timerThread ∧
      s1.handler = (sampleState [(3, 100), (5, 101)] 0).handler := by
  obtain ⟨log, s1, h1, hlog, hcount, heff, -, hh⟩ :=
    sendHeartBeats_spec sampleHeartbeat (sampleState [(3, 100), (5, 101)] 0) rfl
  have hheap := congrArg Prod.fst heff
  have htimer := congrArg Prod.snd heff
  simp only [] at hheap htimer
  refine ⟨log, s1, h1, hlog, ?_, ?_, ?_, ?_, ?_, ?_, ?_, hh⟩
  · rw [hcount 100]; decide
  · rw [hcount 101]; decide
  · rw [hcount 102]; decide
  · rw [hheap, hlog]; decide
  · rw [hheap, hlog]; decide
  · rw [hheap, hlog]; decide
  · rw [htimer, hlog]; rfl

/-- C17: the constructor passes its assertions exactly when the size of each of
the 17 message kinds (session init and close, start and reply; heartbeat start
and reply; the three error kinds; the eight data kinds) is a multiple of 8. -/
theorem constructSessionHandler_assertions (z : MessageSizes) (members : SessionHandler)
    (timer : Option TimerThread)
    (sessionTarget processSession dataTarget processData errorTarget processError : Nat) :
    (constructSessionHandler z members timer sessionTarget processSession dataTarget
        processData errorTarget processError).isSome = true ↔
      (z.Session_Init_Start_Message % 8 = 0 ∧ z.Session_Init_Reply_Message % 8 = 0 ∧
       z.Session_Close_Start_Message % 8 = 0 ∧ z.Session_Close_Reply_Message % 8 = 0 ∧
       z.Heartbeat_Start_Message % 8 = 0 ∧ z.Heartbeat_Reply_Message % 8 = 0 ∧
       z.Error_FalseVersion_Message % 8 = 0 ∧ z.Error_UnknownSession_Message % 8 = 0 ∧
       z.Error_InvalidMessage_Message % 8 = 0 ∧
       z.Data_SingleStatic_Message % 8 = 0 ∧ z.Data_SingleDynamic_Header % 8 = 0 ∧
       z.Data_SingleReply_Message % 8 = 0 ∧
       z.Data_MultiInit_Message % 8 = 0 ∧ z.Data_MultiInitReply_Message % 8 = 0 ∧
       z.Data_MultiStatic_Message % 8 = 0 ∧ z.Data_MultiFinish_Message % 8 = 0 ∧
       z.Data_MultiAbort_Message % 8 = 0) := by
  unfold constructSessionHandler
  by_cases hall : (assertedSizes z).all (fun n => n % 8 == 0) = true
  · simp only [hall, if_true, Option.isSome_some, true_iff]
    simpa [assertedSizes, and_assoc] using hall
  · simp only [hall, Bool.false_eq_true, if_false, Option.isSome_none, false_iff]
    simpa [assertedSizes, and_assoc] using hall

/-- The result of the constructor when the assertions hold. -/
theorem constructSessionHandler_eq (z : MessageSizes) (members : SessionHandler)
    (timer : Option TimerThread)
    (sessionTarget processSession dataTarget processData errorTarget processError : Nat)
    (hsizes : (assertedSizes z).all (fun n => n % 8 == 0) = true) :
    ∃ h, constructSessionHandler z members timer sessionTarget processSession dataTarget
        processData errorTarget processError
      = some (h,
          (match timer with
            | none => some { running := true, messages := [] }
            | some t => some t),
          (match timer with
            | none => [Effect.newTimerThread, Effect.startThread]
            | some _ => [])) := by
  unfold constructSessionHandler
  simp only [hsizes, if_true]
  cases timer with
  | none => exact ⟨_, rfl⟩
  | some t => exact ⟨_, rfl⟩

/-- The result of the destructor when the map lock is free. -/
theorem destructSessionHandler_eq (h : SessionHandler) (timer : Option TimerThread)
    (hlock : h.m_sessionMap_lock = false) :
    ∃ h1, destructSessionHandler h timer
      = some (h1, none,
          [Effect.acquireSessionMapLock, Effect.clearSessions, Effect.clearServers,
            Effect.releaseSessionMapLock] ++
          (match timer with
            | some _ => [Effect.deleteTimerThread]
            | none => [])) ∧
      h1.m_sessions = [] ∧ h1.m_servers = [] ∧ h1.m_sessionMap_lock = false := by
  have hm : ¬ (h.m_sessionMap_lock = true) := by simp [hlock]
  unfold destructSessionHandler
  rw [if_neg hm]
  cases timer with
  | none => exact ⟨_, rfl, rfl, rfl, rfl⟩
  | some t => exact ⟨_, rfl, rfl, rfl, rfl⟩

/-- C12 (as stated, refuted): two handler objects are constructed (the first
starts the timer thread, the second does not), then the first one is destroyed:
one object is still alive and there is no timer thread any more. -/
theorem timerThread_counterexample :
    ∃ p1 p2 p3,
      Process.construct sampleSizes freshMembers emptyProcess 1 2 3 4 5 6 = some p1 ∧
      Process.construct sampleSizes freshMembers p1 1 2 3 4 5 6 = some p2 ∧
      p1.effects = [Effect.newTimerThread, Effect.startThread] ∧
      p2.effects = p1.effects ∧
      Process.destroy p2 0 = some p3 ∧
      p3.handlers.length = 1 ∧
      p3.m_timerThread = none ∧
      ¬ (∃ t, p3.m_timerThread = some t ∧ t.running = true) := by
  refine ⟨_, _, _, rfl, rfl, rfl, rfl, rfl, rfl, rfl, ?_⟩
  rintro ⟨t, ht, -⟩
  exact Option.noConfusion ht

/-- C12 (amended): a constructor starts the shared timer thread exactly when
there is none, so among several objects only the first constructed one starts
it; the destructor of any object stops and frees the timer thread, also while
other objects are still alive, and leaves no timer thread. -/
theorem timerThread_lifecycle (z : MessageSizes) (members : SessionHandler) (p : Process)
    (sessionTarget processSession dataTarget processData errorTarget processError : Nat)
    (hsizes : (assertedSizes z).all (fun n => n % 8 == 0) = true) :
    (∃ p1, Process.construct z members p sessionTarget processSession dataTarget
          processData errorTarget processError = some p1 ∧
        p1.handlers.length = p.handlers.length + 1 ∧
        (p.m_timerThread = none →
          p1.m_timerThread = some { running := true, messages := [] } ∧
          p1.effects = p.effects ++ [Effect.newTimerThread, Effect.startThread]) ∧
        (∀ t, p.m_timerThread = some t →
          p1.m_timerThread = some t ∧ p1.effects = p.effects)) ∧
    (∀ i h, p.handlers.get? i = some h → h.m_sessionMap_lock = false →
      ∃ p1, Process.destroy p i = some p1 ∧
        p1.handlers.length + 1 = p.handlers.length ∧
        p1.m_timerThread = none ∧
        (∀ t, p.m_timerThread = some t →
          p1.effects = p.effects ++
            [Effect.acquireSessionMapLock, Effect.clearSessions, Effect.clearServers,
              Effect.releaseSessionMapLock, Effect.deleteTimerThread])) := by
  constructor
  · obtain ⟨h, hc⟩ := constructSessionHandler_eq z members p.m_timerThread sessionTarget
      processSession dataTarget processData errorTarget processError hsizes
    have heq : Process.construct z members p sessionTarget processSession dataTarget
        processData errorTarget processError
        = some { handlers := p.handlers ++ [h]
                 m_timerThread := (match p.m_timerThread with
                    | none => some { running := true, messages := [] }
                    | some t => some t)
                 effects := p.effects ++ (match p.m_timerThread with
                    | none => [Effect.newTimerThread, Effect.startThread]
                    | some _ => []) } := by
      simp only [Process.construct, hc]
    refine ⟨_, heq, ?_, ?_, ?_⟩
    · simp
    · intro hnone
      simp [hnone]
    · intro t ht
      simp [ht]
  · intro i h hget hlock
    obtain ⟨h1, hd, -⟩ := destructSessionHandler_eq h p.m_timerThread hlock
    have hi : i < p.handlers.length := by
      by_contra hge
      rw [List.get?_eq_none.2 (Nat.le_of_not_lt hge)] at hget
      exact Option.noConfusion hget
    have heq : Process.destroy p i
        = some { handlers := p.handlers.eraseIdx i
                 m_timerThread := none
                 effects := p.effects ++
                   ([Effect.acquireSessionMapLock, Effect.clearSessions, Effect.clearServers,
                     Effect.releaseSessionMapLock] ++
                    (match p.m_timerThread with
                      | some _ => [Effect.deleteTimerThread]
                      | none => [])) } := by
      simp only [Process.destroy, hget, hd]
    refine ⟨_, heq, ?_, rfl, ?_⟩
    · simp only [List.length_eraseIdx, hi, if_true]
      omega
    · intro t ht
      simp only [ht]
      rfl

/-- Witness of `timerThread_lifecycle`: a second object is constructed in a
process whose timer thread is running. -/
theorem timerThread_lifecycle_witness :
    ∃ p1, Process.construct sampleSizes freshMembers
          { handlers := [freshMembers], m_timerThread := some { running := true, messages := [] },
            effects := [] } 1 2 3 4 5 6 = some p1 ∧
      p1.handlers.length = 2 ∧
      p1.m_timerThread = some { running := true, messages := [] } ∧
      p1.effects = [] := by
  obtain ⟨⟨p1, h1, hlen, -, hsome⟩, -⟩ := timerThread_lifecycle sampleSizes freshMembers
    { handlers := [freshMembers], m_timerThread := some { running := true, messages := [] },
      effects := [] } 1 2 3 4 5 6 (by decide)
  exact ⟨p1, h1, hlen, (hsome _ rfl).1, (hsome _ rfl).2⟩

/-- C14 (as stated, refuted): in the effects of the destructor of a handler
with a running timer thread the deletion of the timer thread does not precede
the clearing of the maps; it is the last effect. -/
theorem destructSessionHandler_counterexample :
    (destructSessionHandler (sampleHandler [(3, 100)] 0)
        (some { running := true, messages := [] })).map (fun r => r.2.2)
      = some [Effect.acquireSessionMapLock, Effect.clearSessions, Effect.clearServers,
          Effect.releaseSessionMapLock, Effect.deleteTimerThread] ∧
    ¬ (List.indexOf Effect.deleteTimerThread
          [Effect.acquireSessionMapLock, Effect.clearSessions, Effect.clearServers,
            Effect.releaseSessionMapLock, Effect.deleteTimerThread]
        < List.indexOf Effect.clearSessions
          [Effect.acquireSessionMapLock, Effect.clearSessions, Effect.clearServers,
            Effect.releaseSessionMapLock, Effect.deleteTimerThread]) := by
  refine ⟨rfl, ?_⟩
  decide

/-- C14 (amended): with the map lock free and a timer thread in place, the
destructor returns after these effects, in this order: the map lock is taken,
the session map is cleared, the server map is cleared, the lock is released,
the timer thread is deleted. The clearing of both maps precedes the stop of the
timer thread. -/
theorem destructSessionHandler_order (h : SessionHandler) (t : TimerThread)
    (hlock : h.m_sessionMap_lock = false) :
    ∃ h1 effects, destructSessionHandler h (some t) = some (h1, none, effects) ∧
      effects = [Effect.acquireSessionMapLock, Effect.clearSessions, Effect.clearServers,
        Effect.releaseSessionMapLock, Effect.deleteTimerThread] ∧
      h1.m_sessions = [] ∧ h1.m_servers = [] ∧
      List.indexOf Effect.clearSessions effects
        < List.indexOf Effect.deleteTimerThread effects ∧
      List.indexOf Effect.clearServers effects
        < List.indexOf Effect.deleteTimerThread effects := by
  obtain ⟨h1, hd, hs, hv, -⟩ := destructSessionHandler_eq h (some t) hlock
  refine ⟨h1, [Effect.acquireSessionMapLock, Effect.clearSessions, Effect.clearServers,
    Effect.releaseSessionMapLock, Effect.deleteTimerThread], hd, rfl, hs, hv, ?_, ?_⟩ <;> decide

/-- Witness of `destructSessionHandler_order`: a handler with one registered
session and a running timer thread. -/
theorem destructSessionHandler_order_witness :
    ∃ h1 effects, destructSessionHandler (sampleHandler [(3, 100)] 0)
          (some { running := true, messages := [] }) = some (h1, none, effects) ∧
      effects = [Effect.acquireSessionMapLock, Effect.clearSessions, Effect.clearServers,
        Effect.releaseSessionMapLock, Effect.deleteTimerThread] ∧
      h1.m_sessions = [] ∧ h1.m_servers = [] ∧
      List.indexOf Effect.clearSessions effects
        < List.indexOf Effect.deleteTimerThread effects ∧
      List.indexOf Effect.clearServers effects
        < List.indexOf Effect.deleteTimerThread effects :=
  destructSessionHandler_order (sampleHandler [(3, 100)] 0)
    { running := true, messages := [] } rfl

/-- C19: started with the session-map lock and the id-counter lock both free,
each of `addSession`, `removeSession`, `increaseSessionIdCounter` and
`sendHeartBeats` returns with both locks free again, whatever the id and the
session (registered or not). -/
theorem locks_released (hb : HeartbeatSender) (s : State)
    (hmap : s.handler.m_sessionMap_lock = false)
    (hctr : s.handler.m_sessionIdCounter_lock = false) :
    (∀ id session, ∃ s1, addSession s id session = some s1 ∧
      s1.handler.m_sessionMap_lock = false ∧ s1.handler.m_sessionIdCounter_lock = false) ∧
    (∀ id, ∃ ret s1, removeSession s id = some (ret, s1) ∧
      s1.handler.m_sessionMap_lock = false ∧ s1.handler.m_sessionIdCounter_lock = false) ∧
    (∃ id s1, increaseSessionIdCounter s = some (id, s1) ∧
      s1.handler.m_sessionMap_lock = false ∧ s1.handler.m_sessionIdCounter_lock = false) ∧
    (∃ log s1, sendHeartBeats hb s = some (log, s1) ∧
      s1.handler.m_sessionMap_lock = false ∧ s1.handler.m_sessionIdCounter_lock = false) := by
  have hm : ¬ (s.handler.m_sessionMap_lock = true) := by simp [hmap]
  have hc : ¬ (s.handler.m_sessionIdCounter_lock = true) := by simp [hctr]
  refine ⟨?_, ?_, ?_, ?_⟩
  · intro id session
    unfold addSession
    rw [if_neg hm]
    exact ⟨_, rfl, rfl, hctr⟩
  · intro id
    cases hfind : mapFind s.handler.m_sessions id with
    | none =>
      refine ⟨none, { s with handler := { s.handler with m_sessionMap_lock := false } },
        ?_, rfl, hctr⟩
      simp only [removeSession, hmap]
      simp only [Bool.false_eq_true, if_false, hfind]
    | some p =>
      refine ⟨some p, { s with handler := { s.handler with
          m_sessions := mapErase s.handler.m_sessions id, m_sessionMap_lock := false } },
        ?_, rfl, hctr⟩
      simp only [removeSession, hmap]
      simp only [Bool.false_eq_true, if_false, hfind]
  · unfold increaseSessionIdCounter
    rw [if_neg hc]
    exact ⟨_, _, rfl, hmap, rfl⟩
  · obtain ⟨s1, h1, hh⟩ := sendHeartBeats_eq hb s hmap
    exact ⟨_, s1, h1, by rw [hh]; exact hmap, by rw [hh]; exact hctr⟩

/-- Witness of `locks_released`: `addSession` of the registered id 3 on a
registry whose locks are free. -/
theorem locks_released_witness :
    ∃ s1, addSession (sampleState [(3, 100)] 0) 3 101 = some s1 ∧
      s1.handler.m_sessionMap_lock = false ∧ s1.handler.m_sessionIdCounter_lock = false :=
  (locks_released sampleHeartbeat (sampleState [(3, 100)] 0) rfl rfl).1 3 101

end Kitsune
